import Mathlib

/-!
# Verification of the `nordfjordeid` lecture-notebook repository

Shallow embedding of the repository code (two Jupyter notebooks on
preconditioning of discretized PDEs, an unnamed Stokes notebook, the LaTeX
notes and their Makefile) together with proofs settling the frozen claims
about the natural-language specification.

Real-number scalars of the Python code are embedded as rationals.  Vectors
are lists of rationals and matrices are lists of row vectors, mirroring the
dense arrays the notebook manipulates through dolfin/PETSc.  The square root
in `error = sqrt(r.inner(r))` is never stored by the code: it is only
compared against the tolerance, so the comparison `sqrt rr > tol` is embedded
exactly (for `rr ≥ 0`, which holds for `rr = r·r`) by the square-free
predicate `tol < 0 ∨ tol·tol < rr`.
-/

set_option autoImplicit false

/-! ## Vector and matrix operations used by `steepest_descent`

These embed the dolfin/cbc.block vector operations appearing in the body of
`steepest_descent` in `preconditioning.ipynb`: `inner`, matrix-vector
product, `+`, `-` and scalar multiplication. -/

/-- `u.inner(v)`: the Euclidean inner product of two coefficient vectors. -/
def vdot (u v : List ℚ) : ℚ := (List.zipWith (· * ·) u v).sum

/-- `A*x`: matrix-vector product, one inner product per row. -/
def matVec (A : List (List ℚ)) (x : List ℚ) : List ℚ :=
  A.map (fun row => vdot row x)

/-- Componentwise vector addition. -/
def vadd (u v : List ℚ) : List ℚ := List.zipWith (· + ·) u v

/-- Componentwise vector subtraction. -/
def vsub (u v : List ℚ) : List ℚ := List.zipWith (· - ·) u v

/-- `c*v`: scalar multiple of a vector. -/
def vscale (c : ℚ) (v : List ℚ) : List ℚ := v.map (fun a => c * a)

/-- The loop guard comparison `sqrt rr > tol` of `steepest_descent`, written
without the square root: for `rr ≥ 0` (always true for `rr = r·r`) one has
`sqrt rr > tol ↔ tol < 0 ∨ tol·tol < rr`. -/
def sqrtGt (rr tol : ℚ) : Bool := decide (tol < 0) || decide (tol * tol < rr)

/-- A Python exception raised by the repository code itself: the `KeyError`
of a failed dictionary lookup, the `AssertionError` of a failed `assert`,
the `TypeError` of a wrong-arity call, and the `ZeroDivisionError` that
float division raises on a zero denominator. -/
inductive PyError where
  | keyError
  | assertionError
  | typeError
  | zeroDivisionError
  deriving DecidableEq

/-! ## The `steepest_descent` solver of `preconditioning.ipynb`

```python
def steepest_descent(A, x, b, B, tolerance, maxiter=200):
    r = b - A*x
    error = sqrt(r.inner(r))
    iter = 0
    while error > tolerance and iter < maxiter:
        p = B*r
        Ap = A*p
        rho = r.inner(p)/Ap.inner(p)
        x += rho*p
        r = b - A*x
        error = sqrt(r.inner(r))
        iter += 1
    return iter
```

The Python state (the mutable solution vector `x`, the locals `r` and
`iter`, and the never-written arguments `A`, `b`, `B`, `tolerance`,
`maxiter`) is threaded explicitly through `SDState`.  The `errors` field is a
ghost trace recording `r.inner(r)` at the end of each executed iteration; it
drives no control flow.  The guard conjunct `iter < maxiter` is realized by
running the loop on fuel `maxiter - iter`, which the invariant
`iter + fuel = maxiter` keeps in step with the source guard.

The line `rho = r.inner(p)/Ap.inner(p)` is Python float division: on a zero
denominator (reachable, e.g. with a zero preconditioner `B`) it raises
`ZeroDivisionError` and the function aborts without returning.  The `raised`
field records this: it starts as `none`, the body sets it to
`some zeroDivisionError` instead of updating anything when `Ap.inner(p)` is
zero (the exception fires before the `x += rho*p` write), and the loop stops
at once when it is set, mirroring the uncaught propagation of the
exception. -/

structure SDState where
  A : List (List ℚ)
  x : List ℚ
  b : List ℚ
  B : List (List ℚ)
  tolerance : ℚ
  maxiter : ℕ
  r : List ℚ
  iter : ℕ
  errors : List ℚ
  raised : Option PyError
  deriving DecidableEq

/-- One iteration of the `while` body of `steepest_descent`: raise
`ZeroDivisionError` on a zero denominator in the `rho` line, otherwise
update `x`, recompute `r` and count the iteration. -/
def sd_body (s : SDState) : SDState :=
  let p := matVec s.B s.r
  let Ap := matVec s.A p
  if vdot Ap p = 0 then { s with raised := some .zeroDivisionError }
  else
    let rho := vdot s.r p / vdot Ap p
    let x' := vadd s.x (vscale rho p)
    let r' := vsub s.b (matVec s.A x')
    { s with x := x', r := r', iter := s.iter + 1,
             errors := s.errors ++ [vdot r' r'] }

/-- The `while error > tolerance and iter < maxiter` loop, on fuel
`maxiter - iter`; a raised exception leaves the loop immediately. -/
def sd_loop : ℕ → SDState → SDState
  | 0, s => s
  | fuel + 1, s =>
      if sqrtGt (vdot s.r s.r) s.tolerance then
        let s' := sd_body s
        if s'.raised.isSome then s' else sd_loop fuel s'
      else s

/-- `steepest_descent(A, x, b, B, tolerance, maxiter)`: the final state after
the loop.  The Python return value is the `iter` field of this state when
`raised = none`; when `raised = some e` the call aborts with the exception
`e` and returns nothing. -/
def steepest_descent (A : List (List ℚ)) (x b : List ℚ) (B : List (List ℚ))
    (tolerance : ℚ) (maxiter : ℕ) : SDState :=
  sd_loop maxiter
    { A := A, x := x, b := b, B := B, tolerance := tolerance,
      maxiter := maxiter, r := vsub b (matVec A x), iter := 0, errors := [],
      raised := none }

/-- `sqrt rr ≤ tol` for `rr ≥ 0`, the negation of the loop guard comparison:
the residual error is at or below the tolerance. -/
def residualBelow (rr tol : ℚ) : Prop := 0 ≤ tol ∧ rr ≤ tol * tol

/-- Every entry of the ghost error trace except possibly the last one is
strictly above the tolerance (entry `i` is the residual at the end of
iteration `i+1`; a further iteration was entered only while the guard held). -/
def aboveTol (tol : ℚ) (l : List ℚ) : Prop :=
  ∀ i e, i + 1 < l.length → l[i]? = some e → sqrtGt e tol = true

/-! ## Meshes and the exceptions the repository code can raise itself

`HyperCubeMesh` in `preconditioning.ipynb`:

```python
def HyperCubeMesh(dim, ncells):
    return {1: UnitIntervalMesh,
            2: UnitSquareMesh,
            3: UnitCubeMesh}[dim](*(ncells, )*dim)
```

The dolfin mesh classes are embedded by the data the claims need: the
subdivision counts along each coordinate direction, from which the geometric
dimension and the vertex count of the uniform unit-interval/square/cube
meshes are derived. -/

inductive Mesh where
  | interval (n : ℕ)
  | square (nx ny : ℕ)
  | cube (nx ny nz : ℕ)
  deriving DecidableEq

/-- Subdivision counts along the coordinate directions. -/
def Mesh.subdivisions : Mesh → List ℕ
  | .interval n => [n]
  | .square nx ny => [nx, ny]
  | .cube nx ny nz => [nx, ny, nz]

/-- `mesh.geometry().dim()`: the geometric dimension. -/
def Mesh.gdim : Mesh → ℕ
  | .interval _ => 1
  | .square _ _ => 2
  | .cube _ _ _ => 3

/-- `mesh.num_vertices()` of the uniform unit meshes: `n+1` vertices per
subdivided direction. -/
def Mesh.num_vertices : Mesh → ℕ
  | .interval n => n + 1
  | .square nx ny => (nx + 1) * (ny + 1)
  | .cube nx ny nz => (nx + 1) * (ny + 1) * (nz + 1)

/-- The dolfin mesh constructors the dictionary in `HyperCubeMesh` maps to. -/
inductive MeshCtor where
  | unitIntervalMesh
  | unitSquareMesh
  | unitCubeMesh
  deriving DecidableEq

/-- The dictionary literal of `HyperCubeMesh`: lookup by `dim`, `none` is a
`KeyError`. -/
def meshDict (dim : ℕ) : Option MeshCtor :=
  match dim with
  | 1 => some .unitIntervalMesh
  | 2 => some .unitSquareMesh
  | 3 => some .unitCubeMesh
  | _ => none

/-- Calling a mesh constructor on the positional argument tuple
`(ncells,)*dim`; `none` would be a Python arity `TypeError`, which never
occurs because the lookup key fixes the tuple length. -/
def MeshCtor.call : MeshCtor → List ℕ → Option Mesh
  | .unitIntervalMesh, [n] => some (.interval n)
  | .unitSquareMesh, [nx, ny] => some (.square nx ny)
  | .unitCubeMesh, [nx, ny, nz] => some (.cube nx ny nz)
  | _, _ => none

/-- `HyperCubeMesh(dim, ncells)`: the dictionary is indexed first; only on a
hit is the constructor called with `dim` copies of `ncells`. -/
def HyperCubeMesh (dim ncells : ℕ) : Except PyError Mesh :=
  match meshDict dim with
  | none => .error .keyError
  | some ctor =>
      match ctor.call (List.replicate dim ncells) with
      | some m => .ok m
      | none => .error .typeError

/-- The mesh-dependent prefix of `stiffness_cond(dim, n)` in
`preconditioning.ipynb`: build `HyperCubeMesh(dim, n)` and run the
repository's own `assert mesh.num_vertices() < 5000` failure branch. -/
def stiffness_cond_check (dim n : ℕ) : Except PyError Unit :=
  (HyperCubeMesh dim n).bind fun mesh =>
    if mesh.num_vertices < 5000 then .ok () else .error .assertionError

/-- The assert prefix of `hs_norm(mesh, s, f)` in `coupled.ipynb`:
`assert mesh.geometry().dim() == 1` then `assert mesh.num_vertices() < 5000`,
both failure branches of the repository's own code. -/
def hs_norm_check (mesh : Mesh) : Except PyError Unit :=
  if mesh.gdim = 1 then
    if mesh.num_vertices < 5000 then .ok () else .error .assertionError
  else .error .assertionError

/-! ## Catalog of the iterative solver invocations in the notebooks

Every call of an iterative solver in `preconditioning.ipynb` and
`coupled.ipynb` (the unnamed Stokes notebook only calls the direct `solve`),
in source order, with the method used and where its loop is implemented:
imported from the external `cbc.block` package (`block.iterative`), or the
`while` loop `steepest_descent` defined by the notebook itself.  `LGMRES` is
the GMRES implementation `cbc.block` provides. -/

inductive Method where
  | richardson
  | steepestDescent
  | conjGrad
  | lgmres
  | minres
  deriving DecidableEq

inductive Origin where
  | externalLib
  | thisRepo
  deriving DecidableEq

structure IterSolve where
  notebook : String
  experiment : String
  method : Method
  origin : Origin
  deriving DecidableEq

def iterSolves : List IterSolve :=
  [⟨"preconditioning.ipynb", "Richardson, AMG Riesz map H10, poisson",
      .richardson, .externalLib⟩,
   ⟨"preconditioning.ipynb", "Richardson, scaled InvDiag Jacobi, poisson",
      .richardson, .externalLib⟩,
   ⟨"preconditioning.ipynb", "Richardson, scaled InvDiag Jacobi, L2 projection",
      .richardson, .externalLib⟩,
   ⟨"preconditioning.ipynb", "steepest_descent, AMG Riesz map H10, poisson",
      .steepestDescent, .thisRepo⟩,
   ⟨"preconditioning.ipynb", "ConjGrad, AMG Riesz map H10, poisson",
      .conjGrad, .externalLib⟩,
   ⟨"preconditioning.ipynb", "Richardson, AMG Riesz map H1, cd_system_Galerkin",
      .richardson, .externalLib⟩,
   ⟨"preconditioning.ipynb", "LGMRES, AMG Riesz map H1, cd_system_Galerkin",
      .lgmres, .externalLib⟩,
   ⟨"preconditioning.ipynb", "LGMRES, AMG, cd_system_SUPG",
      .lgmres, .externalLib⟩,
   ⟨"coupled.ipynb", "MinRes, block Riesz map, mixed_poisson_block",
      .minres, .externalLib⟩,
   ⟨"coupled.ipynb", "MinRes, block Riesz map, babuska",
      .minres, .externalLib⟩]

/-- The four methods the claim about solver methods names: Richardson,
steepest descent, conjugate gradient and GMRES. -/
def claimedMethods : List Method :=
  [.richardson, .steepestDescent, .conjGrad, .lgmres]

/-! ## The Makefile of the LaTeX notes

```make
.PHONY: all clean

all: precond.pdf coupled.pdf

precond.pdf: precond.tex p_intro.tex p_lax_milgram.tex
	latexmk -pdfps -pdflatex="pdflatex --shell-escape %O %S" $<

coupled.pdf: coupled.tex
	latexmk -pdfps -pdflatex="pdflatex --shell-escape %O %S" $<

view:
	evince precond.pdf &

clean:
	latexmk -C
```

Rules are embedded in file order (the `.PHONY` line declares special
targets, not a rule making a file, and is kept separately); a recipe is a
list of commands, a command a program name with its argument words after
shell-quote removal and with `$<` (the first prerequisite) expanded. -/

structure Command where
  prog : String
  args : List String
  deriving DecidableEq

structure MakeRule where
  target : String
  prereqs : List String
  recipe : List Command
  deriving DecidableEq

/-- The `latexmk` invocation both PDF rules share, applied to `$<`. -/
def latexmkCmd (src : String) : Command :=
  ⟨"latexmk", ["-pdfps", "-pdflatex=pdflatex --shell-escape %O %S", src]⟩

def phonyTargets : List String := ["all", "clean"]

def makefileRules : List MakeRule :=
  [⟨"all", ["precond.pdf", "coupled.pdf"], []⟩,
   ⟨"precond.pdf", ["precond.tex", "p_intro.tex", "p_lax_milgram.tex"],
      [latexmkCmd "precond.tex"]⟩,
   ⟨"coupled.pdf", ["coupled.tex"], [latexmkCmd "coupled.tex"]⟩,
   ⟨"view", [], [⟨"evince", ["precond.pdf", "&"]⟩]⟩,
   ⟨"clean", [], [⟨"latexmk", ["-C"]⟩]⟩]

/-- The default goal of a Makefile: the target of the first rule. -/
def defaultGoal : Option String := (makefileRules.map (·.target)).head?

/-- The rule for a target, if any. -/
def ruleFor (t : String) : Option MakeRule :=
  makefileRules.find? (·.target == t)

/-- The targets `make` visits from a goal, fuel-bounded walk of the
prerequisite graph (the graph here has depth 2). -/
def invoked : ℕ → String → List String
  | 0, _ => []
  | fuel + 1, goal =>
      match ruleFor goal with
      | none => [goal]
      | some r => goal :: (r.prereqs.map (invoked fuel)).flatten

/-- Does the file name end in `.pdf`?  (Spelled on the character list so
that concrete instances evaluate in the kernel.) -/
def isPDFname (t : String) : Bool :=
  t.toList.reverse.take 4 == ['f', 'd', 'p', '.']

/-- The PDF files the default goal rebuilds: targets reached from the
default goal whose rule carries a (compiling) recipe and whose name is a
`.pdf` file. -/
def defaultPDFs : List String :=
  match defaultGoal with
  | none => []
  | some g => (invoked 3 g).filter
      (fun t => isPDFname t && (ruleFor t).any (fun r => !r.recipe.isEmpty))

/-! ## `Diag` and `InvDiag` of `preconditioning.ipynb`

```python
def Diag(A):
    dvec = as_backend_type(A).mat().getDiagonal()
    diagAinv = PETSc.Mat().createAIJ(dvec.size, nnz=1)
    diagAinv.setDiagonal(dvec)
    return PETScMatrix(diagAinv)

def InvDiag(A):
    dvec = as_backend_type(A).mat().getDiagonal()
    dvec.reciprocal()
    diagAinv = PETSc.Mat().createAIJ(dvec.size, nnz=1)
    diagAinv.setDiagonal(dvec)
    return PETScMatrix(diagAinv)
```

A square PETSc matrix of size `n` is embedded as `Matrix (Fin n) (Fin n) ℚ`.
`MatGetDiagonal` returns a fresh vector holding the diagonal of `A`; it does
not alias the matrix, so `VecReciprocal` in `InvDiag` touches only that
copy.  `VecReciprocal` replaces every nonzero component by its reciprocal
and leaves zero components at zero, which is exactly `Rat` inversion
(`(0 : ℚ)⁻¹ = 0`).  `createAIJ` + `setDiagonal` build the diagonal matrix
with the given diagonal.  The `*Run` variants also return the matrix `A` as
it stands after the call, making the write-set of each function explicit. -/

/-- `as_backend_type(A).mat().getDiagonal()`: a fresh copy of the diagonal. -/
def getDiagonal {n : ℕ} (A : Matrix (Fin n) (Fin n) ℚ) : Fin n → ℚ :=
  fun i => A i i

/-- `dvec.reciprocal()` (PETSc `VecReciprocal`): componentwise reciprocal,
zero components stay zero. -/
def vecReciprocal {n : ℕ} (d : Fin n → ℚ) : Fin n → ℚ := fun i => (d i)⁻¹

/-- `Diag(A)`: the diagonal matrix with the diagonal of `A`. -/
def Diag {n : ℕ} (A : Matrix (Fin n) (Fin n) ℚ) : Matrix (Fin n) (Fin n) ℚ :=
  Matrix.diagonal (getDiagonal A)

/-- `InvDiag(A)`: the diagonal matrix with reciprocals of the diagonal of
`A`. -/
def InvDiag {n : ℕ} (A : Matrix (Fin n) (Fin n) ℚ) :
    Matrix (Fin n) (Fin n) ℚ :=
  Matrix.diagonal (vecReciprocal (getDiagonal A))

/-- `Diag(A)` together with the state of `A` after the call: only the fresh
`dvec` and `diagAinv` objects are written, never `A`. -/
def DiagRun {n : ℕ} (A : Matrix (Fin n) (Fin n) ℚ) :
    Matrix (Fin n) (Fin n) ℚ × Matrix (Fin n) (Fin n) ℚ :=
  let dvec := getDiagonal A
  (Matrix.diagonal dvec, A)

/-- `InvDiag(A)` together with the state of `A` after the call: the
`reciprocal()` write hits the fresh copy `dvec`, never `A`. -/
def InvDiagRun {n : ℕ} (A : Matrix (Fin n) (Fin n) ℚ) :
    Matrix (Fin n) (Fin n) ℚ × Matrix (Fin n) (Fin n) ℚ :=
  let dvec := getDiagonal A
  let dvec := vecReciprocal dvec
  (Matrix.diagonal dvec, A)

/-! ## Helper lemmas about the `steepest_descent` loop -/

/-- On a zero denominator the body only sets the exception flag. -/
theorem sd_body_raise (s : SDState)
    (hz : vdot (matVec s.A (matVec s.B s.r)) (matVec s.B s.r) = 0) :
    sd_body s = { s with raised := some PyError.zeroDivisionError } := by
  simp only [sd_body]
  rw [if_pos hz]

/-- On a nonzero denominator the body raises nothing, leaves `A`, `b`, `B`,
`tolerance` and `maxiter` alone, increments `iter` and appends the new
residual to the ghost trace. -/
theorem sd_body_ok (s : SDState)
    (hz : vdot (matVec s.A (matVec s.B s.r)) (matVec s.B s.r) ≠ 0) :
    (sd_body s).raised = s.raised ∧ (sd_body s).A = s.A ∧
      (sd_body s).b = s.b ∧ (sd_body s).B = s.B ∧
      (sd_body s).tolerance = s.tolerance ∧ (sd_body s).maxiter = s.maxiter ∧
      (sd_body s).iter = s.iter + 1 ∧
      (sd_body s).errors = s.errors ++ [vdot (sd_body s).r (sd_body s).r] := by
  simp only [sd_body]
  rw [if_neg hz]
  exact ⟨rfl, rfl, rfl, rfl, rfl, rfl, rfl, rfl⟩

/-- The body never writes the arguments `A`, `b`, `B`, `tolerance`,
`maxiter`, on either branch. -/
theorem sd_body_frame (s : SDState) :
    (sd_body s).A = s.A ∧ (sd_body s).b = s.b ∧ (sd_body s).B = s.B ∧
      (sd_body s).tolerance = s.tolerance ∧ (sd_body s).maxiter = s.maxiter := by
  simp only [sd_body]
  split
  · exact ⟨rfl, rfl, rfl, rfl, rfl⟩
  · exact ⟨rfl, rfl, rfl, rfl, rfl⟩

/-- A body run that raises nothing took the nonzero-denominator branch. -/
theorem sd_body_ok_of_none (s : SDState) (hn : (sd_body s).raised = none) :
    vdot (matVec s.A (matVec s.B s.r)) (matVec s.B s.r) ≠ 0 := by
  intro hz
  rw [sd_body_raise s hz] at hn
  exact Option.noConfusion hn

/-- A body run that raised, starting unraised, took the zero-denominator
branch and froze the state. -/
theorem sd_body_raised_of_isSome (s : SDState) (hr : s.raised = none)
    (hs : ((sd_body s).raised.isSome : Bool) = true) :
    sd_body s = { s with raised := some PyError.zeroDivisionError } := by
  by_cases hz : vdot (matVec s.A (matVec s.B s.r)) (matVec s.B s.r) = 0
  · exact sd_body_raise s hz
  · exfalso
    rw [(sd_body_ok s hz).1, hr] at hs
    exact Bool.noConfusion hs

/-- The loop leaves `A`, `b`, `B`, `tolerance` and `maxiter` untouched. -/
theorem sd_loop_frame (fuel : ℕ) (s : SDState) :
    (sd_loop fuel s).A = s.A ∧ (sd_loop fuel s).b = s.b ∧
      (sd_loop fuel s).B = s.B ∧ (sd_loop fuel s).tolerance = s.tolerance ∧
      (sd_loop fuel s).maxiter = s.maxiter := by
  induction fuel generalizing s with
  | zero => exact ⟨rfl, rfl, rfl, rfl, rfl⟩
  | succ n ih =>
    simp only [sd_loop]
    split
    · split
      · exact sd_body_frame s
      · have h1 := ih (sd_body s)
        have h2 := sd_body_frame s
        exact ⟨h1.1.trans h2.1, h1.2.1.trans h2.2.1, h1.2.2.1.trans h2.2.2.1,
          h1.2.2.2.1.trans h2.2.2.2.1, h1.2.2.2.2.trans h2.2.2.2.2⟩
    · exact ⟨rfl, rfl, rfl, rfl, rfl⟩

/-- Exit condition of the loop, started unraised: it runs at most `fuel`
more iterations; if it stops without an exception then the guard is false
or the fuel (the `iter < maxiter` conjunct) is exhausted; and the only
exception it can raise is the `ZeroDivisionError` of the `rho` line, fired
strictly before the fuel runs out. -/
theorem sd_loop_post (fuel : ℕ) (s : SDState) (hr : s.raised = none) :
    (sd_loop fuel s).iter ≤ s.iter + fuel ∧
      ((sd_loop fuel s).raised = none →
        sqrtGt (vdot (sd_loop fuel s).r (sd_loop fuel s).r) s.tolerance =
            false ∨
          (sd_loop fuel s).iter = s.iter + fuel) ∧
      (∀ e, (sd_loop fuel s).raised = some e →
        e = PyError.zeroDivisionError ∧
          (sd_loop fuel s).iter < s.iter + fuel) := by
  induction fuel generalizing s with
  | zero =>
    simp only [sd_loop]
    refine ⟨Nat.le_refl _, fun _ => Or.inr rfl, fun e he => ?_⟩
    rw [hr] at he
    exact Option.noConfusion he
  | succ n ih =>
    simp only [sd_loop]
    split
    · split
      · next hs =>
          rw [sd_body_raised_of_isSome s hr hs]
          refine ⟨Nat.le_add_right _ _, fun hn => Option.noConfusion hn,
            fun e he => ?_⟩
          cases he
          exact ⟨rfl, by show s.iter < s.iter + (n + 1); omega⟩
      · next hs =>
          have hn : (sd_body s).raised = none :=
            Option.not_isSome_iff_eq_none.mp hs
          have hz := sd_body_ok_of_none s hn
          have hk := sd_body_ok s hz
          have h1 := (ih (sd_body s) hn).1
          have h2 := (ih (sd_body s) hn).2.1
          have h3 := (ih (sd_body s) hn).2.2
          have hb : (sd_body s).iter = s.iter + 1 := hk.2.2.2.2.2.2.1
          refine ⟨by omega, fun hfin => ?_, fun e he => ?_⟩
          · rcases h2 hfin with h2 | h2
            · exact Or.inl (hk.2.2.2.2.1 ▸ h2)
            · exact Or.inr (by omega)
          · exact ⟨(h3 e he).1, by have := (h3 e he).2; omega⟩
    · next hg =>
        refine ⟨Nat.le_add_right _ _, fun _ => Or.inl (by simpa using hg),
          fun e he => ?_⟩
        rw [hr] at he
        exact Option.noConfusion he

/-- `iter` counts exactly the executed iterations (the ghost-trace
length). -/
theorem sd_loop_iter_count (fuel : ℕ) (s : SDState) (hr : s.raised = none)
    (h : s.iter = s.errors.length) :
    (sd_loop fuel s).iter = (sd_loop fuel s).errors.length := by
  induction fuel generalizing s with
  | zero => exact h
  | succ n ih =>
    simp only [sd_loop]
    split
    · split
      · next hs =>
          rw [sd_body_raised_of_isSome s hr hs]
          exact h
      · next hs =>
          have hn : (sd_body s).raised = none :=
            Option.not_isSome_iff_eq_none.mp hs
          have hk := sd_body_ok s (sd_body_ok_of_none s hn)
          refine ih (sd_body s) hn ?_
          rw [hk.2.2.2.2.2.2.1, hk.2.2.2.2.2.2.2, List.length_append, h,
            List.length_singleton]
    · exact h

/-- Loop invariant for the ghost trace, started unraised: if every recorded
residual but the last is above the tolerance and the last one is the
residual of the current state, the same holds when the loop stops (a new
iteration starts only when the guard holds on the current residual, and a
raising iteration records nothing). -/
theorem sd_loop_aboveTol (fuel : ℕ) (s : SDState) (hr : s.raised = none)
    (hlast : s.errors = [] ∨ s.errors.getLast? = some (vdot s.r s.r))
    (hinv : aboveTol s.tolerance s.errors) :
    aboveTol s.tolerance (sd_loop fuel s).errors := by
  induction fuel generalizing s with
  | zero => exact hinv
  | succ n ih =>
    simp only [sd_loop]
    split
    · next hg =>
        split
        · next hs =>
            rw [sd_body_raised_of_isSome s hr hs]
            exact hinv
        · next hs =>
            have hn : (sd_body s).raised = none :=
              Option.not_isSome_iff_eq_none.mp hs
            have hk := sd_body_ok s (sd_body_ok_of_none s hn)
            have hconc := hk.2.2.2.2.2.2.2
            have htol : (sd_body s).tolerance = s.tolerance := hk.2.2.2.2.1
            have haux1 : (sd_body s).errors = [] ∨
                (sd_body s).errors.getLast? =
                  some (vdot (sd_body s).r (sd_body s).r) := by
              right
              rw [hconc]
              exact List.getLast?_concat _
            have haux2 : aboveTol (sd_body s).tolerance (sd_body s).errors := by
              rw [htol]
              intro i e hi he
              rw [hconc] at hi he
              rw [List.length_append, List.length_singleton] at hi
              have hil : i < s.errors.length := by omega
              rw [List.getElem?_append, if_pos hil] at he
              by_cases hfin : i + 1 < s.errors.length
              · exact hinv i e hfin he
              · rcases hlast with h0 | h0
                · rw [h0] at hil; simp at hil
                · rw [List.getLast?_eq_getElem? s.errors,
                    show s.errors.length - 1 = i by omega, he] at h0
                  cases h0
                  exact hg
            have hres := ih (sd_body s) hn haux1 haux2
            rw [htol] at hres
            exact hres
    · next hg => exact hinv

/-- The guard comparison is false exactly when the residual error
`sqrt rr` is at or below the tolerance (for `rr ≥ 0`). -/
theorem sqrtGt_eq_false_iff (rr tol : ℚ) :
    sqrtGt rr tol = false ↔ residualBelow rr tol := by
  simp [sqrtGt, residualBelow, not_lt]

/-! ## Claim theorems -/

/-- Claim C1 is false on the code: not every call of `steepest_descent`
returns an iteration count.  On
`steepest_descent([[1]], [0], [1], [[0]], 1/2, 3)` — the zero
preconditioner `B = 0` — the first iteration computes `p = B*r = 0`,
`Ap.inner(p) = 0`, and the line `rho = r.inner(p)/Ap.inner(p)` raises
`ZeroDivisionError`: the call aborts after zero completed iterations with
the residual still at `1 > 1/2` and `iter = 0 ≠ maxiter`, so nothing
satisfying the claimed postcondition is returned. -/
theorem steepest_descent_zero_division :
    (steepest_descent [[1]] [0] [1] [[0]] (1 / 2) 3).raised =
        some PyError.zeroDivisionError ∧
      (steepest_descent [[1]] [0] [1] [[0]] (1 / 2) 3).iter = 0 ∧
      ¬ residualBelow
          (vdot (steepest_descent [[1]] [0] [1] [[0]] (1 / 2) 3).r
            (steepest_descent [[1]] [0] [1] [[0]] (1 / 2) 3).r) (1 / 2) ∧
      (0 : ℕ) ≠ 3 := by
  refine ⟨?_, ?_, ?_, by norm_num⟩ <;>
    norm_num [steepest_descent, sd_loop, sd_body, vdot, matVec, vadd, vsub,
      vscale, sqrtGt, residualBelow]

/-- Claim C1, amended: every call
`steepest_descent(A, x, b, B, tolerance, maxiter)` with `maxiter` a natural
number terminates (the loop consumes the fuel `maxiter - iter`, so the
embedding is total) with `iter ≤ maxiter`, and either it raises no
exception and returns the iteration count `iter` with `0 ≤ iter ≤ maxiter`
such that at return the residual error `sqrt(r.inner(r))` is at most
`tolerance` or `iter` equals `maxiter`; or it aborts with the
`ZeroDivisionError` of the `rho = r.inner(p)/Ap.inner(p)` line (the only
exception the function itself can raise), which can fire only strictly
before `maxiter` iterations have completed. -/
theorem steepest_descent_iter_bounded (A : List (List ℚ)) (x b : List ℚ)
    (B : List (List ℚ)) (tolerance : ℚ) (maxiter : ℕ) :
    (steepest_descent A x b B tolerance maxiter).iter ≤ maxiter ∧
      ((steepest_descent A x b B tolerance maxiter).raised = none →
        residualBelow
            (vdot (steepest_descent A x b B tolerance maxiter).r
              (steepest_descent A x b B tolerance maxiter).r) tolerance ∨
          (steepest_descent A x b B tolerance maxiter).iter = maxiter) ∧
      (∀ e, (steepest_descent A x b B tolerance maxiter).raised = some e →
        e = PyError.zeroDivisionError ∧
          (steepest_descent A x b B tolerance maxiter).iter < maxiter) := by
  have h := sd_loop_post maxiter
    { A := A, x := x, b := b, B := B, tolerance := tolerance,
      maxiter := maxiter, r := vsub b (matVec A x), iter := 0, errors := [],
      raised := none } rfl
  refine ⟨h.1.trans (Nat.le_of_eq (Nat.zero_add _)), fun hn => ?_,
    fun e he => ?_⟩
  · rcases h.2.1 hn with h2 | h2
    · exact Or.inl ((sqrtGt_eq_false_iff _ _).mp h2)
    · exact Or.inr (h2.trans (Nat.zero_add _))
  · exact ⟨(h.2.2 e he).1,
      Nat.lt_of_lt_of_le (h.2.2 e he).2 (Nat.le_of_eq (Nat.zero_add _))⟩

/-- Witness for the amended claim C1, at a normal run (the 1-by-1 identity
system, solved in one iteration with nothing raised) and at the aborting
zero-preconditioner run. -/
theorem steepest_descent_iter_bounded_witness :
    (residualBelow
        (vdot (steepest_descent [[1]] [0] [1] [[1]] (1 / 10) 5).r
          (steepest_descent [[1]] [0] [1] [[1]] (1 / 10) 5).r) (1 / 10) ∨
      (steepest_descent [[1]] [0] [1] [[1]] (1 / 10) 5).iter = 5) ∧
      (PyError.zeroDivisionError = PyError.zeroDivisionError ∧
        (steepest_descent [[1]] [0] [1] [[0]] (1 / 2) 3).iter < 3) :=
  ⟨(steepest_descent_iter_bounded [[1]] [0] [1] [[1]] (1 / 10) 5).2.1
      (by norm_num [steepest_descent, sd_loop, sd_body, vdot, matVec, vadd,
        vsub, vscale, sqrtGt]),
    (steepest_descent_iter_bounded [[1]] [0] [1] [[0]] (1 / 2) 3).2.2
      PyError.zeroDivisionError
      (by norm_num [steepest_descent, sd_loop, sd_body, vdot, matVec, vadd,
        vsub, vscale, sqrtGt])⟩

/-- Claim C10: `steepest_descent` writes only the solution vector `x`: the
matrix `A`, the right-hand side `b`, the preconditioner `B`, the tolerance
and `maxiter` are unchanged by every execution, and the single returned
value is the iteration count (which equals the number of loop iterations
executed, the length of the ghost trace). -/
theorem steepest_descent_frame (A : List (List ℚ)) (x b : List ℚ)
    (B : List (List ℚ)) (tolerance : ℚ) (maxiter : ℕ) :
    (steepest_descent A x b B tolerance maxiter).A = A ∧
      (steepest_descent A x b B tolerance maxiter).b = b ∧
      (steepest_descent A x b B tolerance maxiter).B = B ∧
      (steepest_descent A x b B tolerance maxiter).tolerance = tolerance ∧
      (steepest_descent A x b B tolerance maxiter).maxiter = maxiter ∧
      (steepest_descent A x b B tolerance maxiter).iter =
        (steepest_descent A x b B tolerance maxiter).errors.length := by
  have h := sd_loop_frame maxiter
    { A := A, x := x, b := b, B := B, tolerance := tolerance,
      maxiter := maxiter, r := vsub b (matVec A x), iter := 0, errors := [],
      raised := none }
  have hc := sd_loop_iter_count maxiter
    { A := A, x := x, b := b, B := B, tolerance := tolerance,
      maxiter := maxiter, r := vsub b (matVec A x), iter := 0, errors := [],
      raised := none }
    rfl rfl
  exact ⟨h.1, h.2.1, h.2.2.1, h.2.2.2.1, h.2.2.2.2, hc⟩

/-- Claim C5 is false on the code: on the concrete run
`steepest_descent(I₂, [0,0], [1,0], [[0,1],[1,0]], 1/2, 2)` the residual
error after each of the two executed iterations is `sqrt 1 = 1` (the
search direction is orthogonal to the residual, so `rho = 0` and the
iteration stalls): the residual does not decrease from one iteration to the
next and never falls below the tolerance `1/2`. -/
theorem steepest_descent_not_monotone :
    (steepest_descent [[1, 0], [0, 1]] [0, 0] [1, 0] [[0, 1], [1, 0]]
        (1 / 2) 2).errors = [1, 1] ∧
      ¬ ((1 : ℚ) < 1) ∧ sqrtGt 1 (1 / 2) = true := by
  refine ⟨?_, by norm_num, by norm_num [sqrtGt]⟩
  norm_num [steepest_descent, sd_loop, sd_body, vdot, matVec, vadd, vsub,
    vscale, sqrtGt]

/-- Claim C5, amended: the residual error recorded at the end of a loop
iteration of `steepest_descent` need not decrease from one iteration to the
next; what the loop does guarantee is that every recorded residual except
possibly the final one is strictly above the tolerance, because a further
iteration is entered only while the guard `error > tolerance` holds. -/
theorem steepest_descent_errors_above_tol (A : List (List ℚ)) (x b : List ℚ)
    (B : List (List ℚ)) (tolerance : ℚ) (maxiter : ℕ) (i : ℕ) (e : ℚ)
    (hi : i + 1 < (steepest_descent A x b B tolerance maxiter).errors.length)
    (he : (steepest_descent A x b B tolerance maxiter).errors[i]? = some e) :
    sqrtGt e tolerance = true := by
  have h := sd_loop_aboveTol maxiter
    { A := A, x := x, b := b, B := B, tolerance := tolerance,
      maxiter := maxiter, r := vsub b (matVec A x), iter := 0, errors := [],
      raised := none }
    rfl (Or.inl rfl) (fun i e hi _ => absurd hi (by simp))
  exact h i e hi he

/-- Witness for the amended claim C5 at the stalling run: the residual `1`
recorded at the end of the first of two iterations is above the
tolerance `1/2`. -/
theorem steepest_descent_errors_above_tol_witness : sqrtGt 1 (1 / 2) = true :=
  steepest_descent_errors_above_tol [[1, 0], [0, 1]] [0, 0] [1, 0]
    [[0, 1], [1, 0]] (1 / 2) 2 0 1
    (by norm_num [steepest_descent, sd_loop, sd_body, vdot, matVec, vadd,
      vsub, vscale, sqrtGt])
    (by norm_num [steepest_descent, sd_loop, sd_body, vdot, matVec, vadd,
      vsub, vscale, sqrtGt])

/-- Claim C2 is false on the code: the repository code does raise an error
of its own.  On `stiffness_cond(1, 4999)` the unit interval mesh has 5000
vertices and the function's own failure branch
`assert mesh.num_vertices() < 5000` raises `AssertionError` from repository
code, not from an underlying numerical library. -/
theorem stiffness_cond_assert_raises :
    stiffness_cond_check 1 4999 = Except.error PyError.assertionError := by
  rfl

/-- Claim C2, amended: no function of the repository catches an exception,
but the repository's own code does contain failure branches: past a
successful mesh construction, `stiffness_cond` raises its own
`AssertionError` exactly when the mesh has 5000 or more vertices (similar
`assert` branches exist in `hs_norm`, `expr_body` and `cd_system_SUPG`,
`HyperCubeMesh` raises `KeyError` on an unknown dimension, and the `rho`
line of `steepest_descent` can raise `ZeroDivisionError`); all of them,
like external-library failures, propagate uncaught. -/
theorem stiffness_cond_check_spec (dim n : ℕ) (mesh : Mesh)
    (hm : HyperCubeMesh dim n = Except.ok mesh) :
    stiffness_cond_check dim n =
      (if mesh.num_vertices < 5000 then Except.ok ()
       else Except.error PyError.assertionError) ∧
      (hs_norm_check mesh =
        if mesh.gdim = 1 ∧ mesh.num_vertices < 5000 then Except.ok ()
        else Except.error PyError.assertionError) := by
  constructor
  · rw [stiffness_cond_check, hm]
    rfl
  · rw [hs_norm_check]
    by_cases h1 : mesh.gdim = 1
    · by_cases h2 : mesh.num_vertices < 5000
      · rw [if_pos h1, if_pos h2, if_pos ⟨h1, h2⟩]
      · rw [if_pos h1, if_neg h2, if_neg (by tauto)]
    · rw [if_neg h1, if_neg (by tauto)]

/-- Witness for the amended claim C2 at `stiffness_cond(1, 4999)`: the mesh
construction succeeds with the interval mesh on 4999 cells and the assert
branches fire on its 5000 vertices. -/
theorem stiffness_cond_check_spec_witness :
    (stiffness_cond_check 1 4999 =
      (if (Mesh.interval 4999).num_vertices < 5000 then Except.ok ()
       else Except.error PyError.assertionError)) ∧
      (hs_norm_check (Mesh.interval 4999) =
        if (Mesh.interval 4999).gdim = 1 ∧
            (Mesh.interval 4999).num_vertices < 5000 then Except.ok ()
        else Except.error PyError.assertionError) :=
  stiffness_cond_check_spec 1 4999 (Mesh.interval 4999) rfl

/-- Claim C9: `HyperCubeMesh(dim, ncells)` returns, for `dim` equal to 1, 2
or 3, the unit interval, unit square or unit cube mesh with `ncells`
subdivisions along each of the `dim` directions; for any other `dim` the
dictionary lookup fails and the call raises a `KeyError` before any mesh
constructor is called. -/
theorem HyperCubeMesh_spec (dim ncells : ℕ) :
    (dim = 1 → HyperCubeMesh dim ncells = Except.ok (Mesh.interval ncells)) ∧
      (dim = 2 →
        HyperCubeMesh dim ncells = Except.ok (Mesh.square ncells ncells)) ∧
      (dim = 3 →
        HyperCubeMesh dim ncells =
          Except.ok (Mesh.cube ncells ncells ncells)) ∧
      (∀ m, HyperCubeMesh dim ncells = Except.ok m →
        m.subdivisions = List.replicate dim ncells ∧ m.gdim = dim) ∧
      (dim ≠ 1 → dim ≠ 2 → dim ≠ 3 →
        HyperCubeMesh dim ncells = Except.error PyError.keyError) := by
  refine ⟨?_, ?_, ?_, ?_, ?_⟩
  · rintro rfl; rfl
  · rintro rfl; rfl
  · rintro rfl; rfl
  · intro m hm
    rcases dim with _ | _ | _ | _ | d
    · exact Except.noConfusion hm
    · rw [show HyperCubeMesh 1 ncells = Except.ok (Mesh.interval ncells)
        from rfl] at hm
      cases hm
      exact ⟨rfl, rfl⟩
    · rw [show HyperCubeMesh 2 ncells = Except.ok (Mesh.square ncells ncells)
        from rfl] at hm
      cases hm
      exact ⟨rfl, rfl⟩
    · rw [show HyperCubeMesh 3 ncells =
          Except.ok (Mesh.cube ncells ncells ncells) from rfl] at hm
      cases hm
      exact ⟨rfl, rfl⟩
    · exact Except.noConfusion hm
  · intro h1 h2 h3
    rcases dim with _ | _ | _ | _ | d
    · rfl
    · exact absurd rfl h1
    · exact absurd rfl h2
    · exact absurd rfl h3
    · rfl

/-- Witness for claim C9: the square case at `dim = 2`, `ncells = 4` (with
its subdivision list) and the `KeyError` case at `dim = 5`. -/
theorem HyperCubeMesh_spec_witness :
    HyperCubeMesh 2 4 = Except.ok (Mesh.square 4 4) ∧
      (Mesh.square 4 4).subdivisions = List.replicate 2 4 ∧
      HyperCubeMesh 5 4 = Except.error PyError.keyError :=
  ⟨(HyperCubeMesh_spec 2 4).2.1 rfl,
    ((HyperCubeMesh_spec 2 4).2.2.2.1 (Mesh.square 4 4)
      ((HyperCubeMesh_spec 2 4).2.1 rfl)).1,
    (HyperCubeMesh_spec 5 4).2.2.2.2 (by decide) (by decide) (by decide)⟩

/-- Claim C3 is false on the code: the steepest-descent experiment of
`preconditioning.ipynb` prints an iteration count produced by the
notebook's own `steepest_descent` while loop, an iterative solver loop
implemented by this repository and not by an external library; on the
concrete run below that repository-implemented loop itself executes one
iteration and returns the count. -/
theorem iterSolve_implemented_in_repo :
    IterSolve.mk "preconditioning.ipynb"
        "steepest_descent, AMG Riesz map H10, poisson" Method.steepestDescent
        Origin.thisRepo ∈ iterSolves ∧
      Origin.thisRepo ≠ Origin.externalLib ∧
      (steepest_descent [[1]] [0] [1] [[1]] (1 / 10) 5).iter = 1 := by
  refine ⟨by decide, by decide, ?_⟩
  norm_num [steepest_descent, sd_loop, sd_body, vdot, matVec, vadd, vsub,
    vscale, sqrtGt]

/-- Claim C3, amended: in every notebook experiment except the steepest
descent one the solution vector and the printed iteration count come from
an iterative-solver routine of the external `cbc.block` library; the one
exception is `steepest_descent`, an iterative solver loop the repository
implements itself in `preconditioning.ipynb`. -/
theorem iterSolves_external_except_sd (c : IterSolve) (hc : c ∈ iterSolves) :
    c.origin = Origin.externalLib ∨ c.method = Method.steepestDescent := by
  fin_cases hc <;> simp

/-- Witness for the amended claim C3 at the Babuska MinRes experiment. -/
theorem iterSolves_external_except_sd_witness :
    (IterSolve.mk "coupled.ipynb" "MinRes, block Riesz map, babuska"
        Method.minres Origin.externalLib).origin = Origin.externalLib ∨
      (IterSolve.mk "coupled.ipynb" "MinRes, block Riesz map, babuska"
        Method.minres Origin.externalLib).method = Method.steepestDescent :=
  iterSolves_external_except_sd
    ⟨"coupled.ipynb", "MinRes, block Riesz map, babuska",
      Method.minres, Origin.externalLib⟩ (by decide)

/-- Claim C4 is false on the code: `coupled.ipynb` performs iterative
solves with MinRes (in `mixed_poisson_block` and in `babuska`), a method
that is none of Richardson, steepest descent, conjugate gradient and
GMRES. -/
theorem minres_solve_exists :
    IterSolve.mk "coupled.ipynb"
        "MinRes, block Riesz map, mixed_poisson_block" Method.minres
        Origin.externalLib ∈ iterSolves ∧
      Method.minres ∉ claimedMethods := by
  exact ⟨by decide, by decide⟩

/-- Claim C4, amended: every iterative solve performed anywhere in the
notebooks uses Richardson, steepest descent, conjugate gradient, GMRES
(the `LGMRES` implementation) or MinRes. -/
theorem iterSolves_methods (c : IterSolve) (hc : c ∈ iterSolves) :
    c.method ∈ claimedMethods ++ [Method.minres] := by
  fin_cases hc <;> decide

/-- Witness for the amended claim C4 at the SUPG LGMRES experiment. -/
theorem iterSolves_methods_witness :
    (IterSolve.mk "preconditioning.ipynb" "LGMRES, AMG, cd_system_SUPG"
        Method.lgmres Origin.externalLib).method ∈
      claimedMethods ++ [Method.minres] :=
  iterSolves_methods
    ⟨"preconditioning.ipynb", "LGMRES, AMG, cd_system_SUPG",
      Method.lgmres, Origin.externalLib⟩ (by decide)

/-- Claim C6: the default target `all` of the build file rebuilds exactly
the two PDF documents `precond.pdf` and `coupled.pdf`, each through the
`latexmk` command driving `pdflatex`; `precond.pdf` is rebuilt from
`precond.tex`, `p_intro.tex` and `p_lax_milgram.tex` (with `latexmk` run on
`precond.tex`, the first prerequisite `$<`), and `coupled.pdf` from
`coupled.tex`. -/
theorem makefile_default_builds_two_pdfs :
    defaultGoal = some "all" ∧
      defaultPDFs = ["precond.pdf", "coupled.pdf"] ∧
      ruleFor "all" = some ⟨"all", ["precond.pdf", "coupled.pdf"], []⟩ ∧
      ruleFor "precond.pdf" =
        some ⟨"precond.pdf",
          ["precond.tex", "p_intro.tex", "p_lax_milgram.tex"],
          [latexmkCmd "precond.tex"]⟩ ∧
      ruleFor "coupled.pdf" =
        some ⟨"coupled.pdf", ["coupled.tex"], [latexmkCmd "coupled.tex"]⟩ ∧
      (latexmkCmd "precond.tex").prog = "latexmk" ∧
      "-pdflatex=pdflatex --shell-escape %O %S" ∈
        (latexmkCmd "precond.tex").args ∧
      "precond.tex" ∈ (latexmkCmd "precond.tex").args ∧
      "coupled.tex" ∈ (latexmkCmd "coupled.tex").args := by
  refine ⟨rfl, by decide, by decide, by decide, by decide, rfl, by decide,
    by decide, by decide⟩

/-- Claim C8: for every square matrix `A` all of whose diagonal entries are
nonzero, `Diag(A)` is the diagonal matrix with the diagonal of `A`,
`InvDiag(A)` is the diagonal matrix whose diagonal entries are the
reciprocals of those of `A`, the product `Diag(A) * InvDiag(A)` is the
identity matrix, and neither function writes to `A` (the `Run` variants
return `A` as it stands after the call). -/
theorem Diag_InvDiag_spec (n : ℕ) (A : Matrix (Fin n) (Fin n) ℚ)
    (h : ∀ i, A i i ≠ 0) :
    Diag A * InvDiag A = 1 ∧
      (∀ i, Diag A i i = A i i) ∧
      (∀ i j, i ≠ j → Diag A i j = 0) ∧
      (∀ i, InvDiag A i i = (A i i)⁻¹) ∧
      (∀ i j, i ≠ j → InvDiag A i j = 0) ∧
      (DiagRun A).2 = A ∧ (InvDiagRun A).2 = A ∧
      (DiagRun A).1 = Diag A ∧ (InvDiagRun A).1 = InvDiag A := by
  refine ⟨?_, fun i => Matrix.diagonal_apply_eq _ i,
    fun i j hij => Matrix.diagonal_apply_ne _ hij,
    fun i => Matrix.diagonal_apply_eq _ i,
    fun i j hij => Matrix.diagonal_apply_ne _ hij, rfl, rfl, rfl, rfl⟩
  rw [Diag, InvDiag, Matrix.diagonal_mul_diagonal]
  have hone : (fun i => getDiagonal A i * vecReciprocal (getDiagonal A) i) =
      fun _ : Fin n => (1 : ℚ) :=
    funext fun i => mul_inv_cancel₀ (h i)
  rw [hone, Matrix.diagonal_one]

/-- The concrete matrix for the claim C8 witness. -/
def A8 : Matrix (Fin 2) (Fin 2) ℚ := !![2, 5; 7, 4]

/-- Witness for claim C8 on a concrete 2-by-2 matrix with nonzero
diagonal. -/
theorem Diag_InvDiag_spec_witness :
    Diag A8 * InvDiag A8 = 1 ∧
      (∀ i, Diag A8 i i = A8 i i) ∧
      (∀ i j, i ≠ j → Diag A8 i j = 0) ∧
      (∀ i, InvDiag A8 i i = (A8 i i)⁻¹) ∧
      (∀ i j, i ≠ j → InvDiag A8 i j = 0) ∧
      (DiagRun A8).2 = A8 ∧ (InvDiagRun A8).2 = A8 ∧
      (DiagRun A8).1 = Diag A8 ∧ (InvDiagRun A8).1 = InvDiag A8 :=
  Diag_InvDiag_spec 2 A8 (by decide)
